import Mathlib

/-!
Verification of the hangar_back control plane (Rust) against its
natural-language specification.  The Rust sources are shallowly embedded:
strings are lists of characters, machine integers are `Nat`/`Int`,
fallible operations return `Except`, and the effectful handlers are
embedded as pure functions over explicit state records with oracles for
the external systems (container runtime, SQL stores, tenant MariaDB).
-/

namespace Hangar

/-- Error taxonomy from src/error.rs (the variants the verified paths reach). -/
inductive ProjectErrorCode
  | InvalidProjectName
  | InvalidImageUrl
  | ForbiddenEnvVar (v : String)
  | InvalidVolumePath
  | InvalidSourceRootDir
  | ProjectNameTaken
  | OwnerAlreadyExists
  | OwnerCannotBeParticipant
  | ProjectCreationFailedWithDatabaseError
  | ImagePullFailed
  | ImageScanFailed (report : String)
  | ContainerCreationFailed
  | GithubPackageNotPublic
  | DeleteFailed
  deriving DecidableEq, Repr

/-- Database error codes from src/error.rs. -/
inductive DatabaseErrorCode
  | DatabaseAlreadyExists
  | ProvisioningFailed
  | DeprovisioningFailed
  | NotFound
  deriving DecidableEq, Repr

/-- Application errors from src/error.rs. -/
inductive AppError
  | InternalServerError
  | BadRequest (msg : String)
  | NotFoundErr (msg : String)
  | ProjectError (code : ProjectErrorCode)
  | DatabaseError (code : DatabaseErrorCode)
  deriving DecidableEq, Repr

/-! ### Character and string utilities

Rust `&str` values are embedded as `List Char`; `s.len()` in Rust is the
UTF-8 byte length, embedded as `utf8Len`. -/

/-- Number of bytes of the UTF-8 encoding of one scalar value. -/
def charUtf8Size (c : Char) : Nat :=
  if c.toNat < 0x80 then 1
  else if c.toNat < 0x800 then 2
  else if c.toNat < 0x10000 then 3
  else 4

/-- UTF-8 byte length of a string, i.e. Rust `str::len`. -/
def utf8Len (s : List Char) : Nat := (s.map charUtf8Size).sum

/-- Rust `char::is_ascii_digit`. -/
def isAsciiDigit (c : Char) : Bool := 48 ≤ c.toNat && c.toNat ≤ 57

/-- Rust `char::is_ascii_uppercase`. -/
def isAsciiUppercase (c : Char) : Bool := 65 ≤ c.toNat && c.toNat ≤ 90

/-- Rust `char::is_ascii_lowercase`. -/
def isAsciiLowercase (c : Char) : Bool := 97 ≤ c.toNat && c.toNat ≤ 122

/-- Rust `char::is_ascii_alphanumeric`. -/
def isAsciiAlphanumeric (c : Char) : Bool :=
  isAsciiDigit c || isAsciiUppercase c || isAsciiLowercase c

/-- ASCII lowercasing of one character.  Rust `str::to_lowercase` performs
full Unicode lowercasing, but every call site below applies it only to
strings already validated to be ASCII, where the two agree. -/
def asciiLower (c : Char) : Char :=
  if isAsciiUppercase c then Char.ofNat (c.toNat + 32) else c

/-- ASCII uppercasing of one character (see `asciiLower` for the caveat). -/
def asciiUpper (c : Char) : Char :=
  if isAsciiLowercase c then Char.ofNat (c.toNat - 32) else c

/-! ### Validator (src/services/validation_service.rs) -/

/-- Embedding of `validate_project_name` (validation_service.rs:29-52):
reject empty, byte length over 63, a character that is not ASCII
alphanumeric or a hyphen, or a leading/trailing hyphen; on acceptance
return the lowercased name. -/
def validate_project_name (name : List Char) : Except AppError (List Char) :=
  if name.isEmpty then .error (.ProjectError .InvalidProjectName)
  else if utf8Len name > 63 then .error (.ProjectError .InvalidProjectName)
  else if !(name.all fun c => isAsciiAlphanumeric c || c = '-') then
    .error (.ProjectError .InvalidProjectName)
  else if name.head? = some '-' || name.getLast? = some '-' then
    .error (.ProjectError .InvalidProjectName)
  else .ok (name.map asciiLower)

/-- The acceptance predicate stated by the spec for project names
(spec §4.2): non-empty, at most 63 characters, matching `[a-z0-9-]+`,
not starting or ending with a hyphen.  Written from the words of the
spec, to be compared with `validate_project_name`. -/
def spec_accepts_project_name (name : List Char) : Bool :=
  !name.isEmpty && name.length ≤ 63 &&
    name.all (fun c => isAsciiLowercase c || isAsciiDigit c || c = '-') &&
    !(name.head? = some '-') && !(name.getLast? = some '-')

/-- Acceptance predicate actually enforced by `validate_project_name`:
like the spec predicate but with uppercase ASCII letters also allowed
(they are normalised to lowercase on acceptance). -/
def code_accepts_project_name (name : List Char) : Bool :=
  !name.isEmpty && utf8Len name ≤ 63 &&
    name.all (fun c => isAsciiAlphanumeric c || c = '-') &&
    !(name.head? = some '-') && !(name.getLast? = some '-')

/-! ### Tenant DB identifier validator (src/services/database_service.rs) -/

/-- The SQL reserved words rejected by `valid_identifier`
(database_service.rs:24). -/
def RESERVED : List (List Char) :=
  ["SELECT", "DROP", "INSERT", "UPDATE", "DELETE", "TABLE", "DATABASE"].map String.toList

/-- Characters allowed in a tenant DB identifier
(database_service.rs:27). -/
def allowedIdentChar (c : Char) : Bool :=
  isAsciiLowercase c || isAsciiUppercase c || isAsciiDigit c || c = '_'

/-- Embedding of `valid_identifier` (database_service.rs:17-29).  Rust
`to_uppercase` is full Unicode uppercasing; it is embedded as ASCII
uppercasing, which agrees on every string whose overall verdict it can
influence (a string on which they differ contains a non-ASCII character
and is already rejected by the allowed-character check). -/
def valid_identifier (s : List Char) : Bool :=
  if s.isEmpty || utf8Len s > 64 then false
  else
    match s with
    | [] => false
    | c :: _ =>
      if isAsciiDigit c then false
      else if RESERVED.contains (s.map asciiUpper) then false
      else s.all allowedIdentChar

/-- The acceptance predicate stated by the spec for tenant DB identifiers
(spec §4.2): non-empty, at most 64 characters, first character not a
digit, all characters in `[A-Za-z0-9_]`, uppercasing not in the
reserved-word denylist.  Written from the words of the claim. -/
def spec_accepts_identifier (s : List Char) : Bool :=
  !s.isEmpty && s.length ≤ 64 &&
    !(isAsciiDigit (s.headD ' ')) &&
    s.all allowedIdentChar &&
    !(RESERVED.contains (s.map asciiUpper))

/-! ### Secrets-at-rest layer (src/services/crypto_service.rs)

`encrypt`/`decrypt` call the external `aes_gcm` crate.  Modelled from the
spec: the AEAD is AES-256-GCM (spec §4.1), i.e. a CTR-mode keystream XOR
plus a 16-byte authentication tag recomputed on decryption; the block
cipher and GHASH internals live in the external crate and are embedded as
an arbitrary keystream function and an arbitrary tag function, which the
round-trip law does not depend on.  Bytes are `Nat` values. -/

/-- Nonce size used by crypto_service.rs (`NONCE_SIZE = 12`). -/
def NONCE_SIZE : Nat := 12

/-- Abstract interface of the AES-256-GCM implementation of the external
crate: a CTR keystream derived from key and nonce, and an authentication
tag over the ciphertext. -/
structure AeadModel where
  keystream : List Nat → List Nat → Nat → List Nat
  tagOf : List Nat → List Nat → List Nat → List Nat

/-- CTR keystream of exactly `n` bytes (the crate consumes exactly as
many keystream bytes as the message length). -/
def ksBytes (A : AeadModel) (key nonce : List Nat) (n : Nat) : List Nat :=
  (A.keystream key nonce n).takeD n 0

/-- The 16-byte GCM authentication tag (AES-256-GCM tags are 16 bytes). -/
def tag16 (A : AeadModel) (key nonce ct : List Nat) : List Nat :=
  (A.tagOf key nonce ct).takeD 16 0

/-- Byte-wise XOR of two equal-length byte strings. -/
def zipXor (a b : List Nat) : List Nat := List.zipWith Nat.xor a b

/-- AEAD sealing: ciphertext (message XOR keystream) followed by the tag. -/
def aeadSeal (A : AeadModel) (key nonce m : List Nat) : List Nat :=
  zipXor m (ksBytes A key nonce m.length) ++
    tag16 A key nonce (zipXor m (ksBytes A key nonce m.length))

/-- AEAD opening: split off the 16-byte tag, recompute and compare it,
and on success XOR the ciphertext with the same keystream. -/
def aeadOpen (A : AeadModel) (key nonce data : List Nat) : Option (List Nat) :=
  if data.length < 16 then none
  else if tag16 A key nonce (data.take (data.length - 16)) = data.drop (data.length - 16) then
    some (zipXor (data.take (data.length - 16))
      (ksBytes A key nonce (data.take (data.length - 16)).length))
  else none

/-- Whether a byte is a UTF-8 continuation byte (`10xxxxxx`). -/
def isCont (b : Nat) : Bool := 0x80 ≤ b && b ≤ 0xBF

/-- UTF-8 validity of a byte string, as checked by Rust
`String::from_utf8` (RFC 3629: no overlong forms, no surrogates, no
scalar values above U+10FFFF). -/
def validUtf8 : List Nat → Bool
  | [] => true
  | b :: rest =>
    if b ≤ 0x7F then validUtf8 rest
    else if 0xC2 ≤ b && b ≤ 0xDF then
      match rest with
      | c1 :: r => isCont c1 && validUtf8 r
      | [] => false
    else if b = 0xE0 then
      match rest with
      | c1 :: c2 :: r => (0xA0 ≤ c1 && c1 ≤ 0xBF) && isCont c2 && validUtf8 r
      | _ => false
    else if (0xE1 ≤ b && b ≤ 0xEC) || b = 0xEE || b = 0xEF then
      match rest with
      | c1 :: c2 :: r => isCont c1 && isCont c2 && validUtf8 r
      | _ => false
    else if b = 0xED then
      match rest with
      | c1 :: c2 :: r => (0x80 ≤ c1 && c1 ≤ 0x9F) && isCont c2 && validUtf8 r
      | _ => false
    else if b = 0xF0 then
      match rest with
      | c1 :: c2 :: c3 :: r => (0x90 ≤ c1 && c1 ≤ 0xBF) && isCont c2 && isCont c3 && validUtf8 r
      | _ => false
    else if 0xF1 ≤ b && b ≤ 0xF3 then
      match rest with
      | c1 :: c2 :: c3 :: r => isCont c1 && isCont c2 && isCont c3 && validUtf8 r
      | _ => false
    else if b = 0xF4 then
      match rest with
      | c1 :: c2 :: c3 :: r => (0x80 ≤ c1 && c1 ≤ 0x8F) && isCont c2 && isCont c3 && validUtf8 r
      | _ => false
    else false

/-- Embedding of `encrypt` (crypto_service.rs:41-59): the freshly sampled
random nonce is an explicit parameter (the source draws it from `OsRng`);
the result is the nonce followed by the authenticated ciphertext.  The
plaintext is a Rust `&str`, embedded as its UTF-8 byte string. -/
def encrypt (A : AeadModel) (key nonce plaintext : List Nat) : List Nat :=
  nonce ++ aeadSeal A key nonce plaintext

/-- Embedding of `decrypt` (crypto_service.rs:73-96): reject blobs shorter
than the nonce, split nonce from ciphertext, open the AEAD, and reject
plaintext that is not valid UTF-8.  All failures collapse to the generic
internal error. -/
def decrypt (A : AeadModel) (key blob : List Nat) : Except AppError (List Nat) :=
  if blob.length < NONCE_SIZE then .error .InternalServerError
  else
    match aeadOpen A key (blob.take NONCE_SIZE) (blob.drop NONCE_SIZE) with
    | none => .error .InternalServerError
    | some pt => if validUtf8 pt then .ok pt else .error .InternalServerError

/-! ### Tenant database provisioning (src/services/database_service.rs)

The MariaDB connection is embedded as two oracles: `acquireOk` (whether
`pool.acquire()` succeeds) and `execOk` (whether executing a given SQL
statement succeeds).  Each function returns its result together with the
list of SQL statements submitted to the tenant server, in order. -/

/-- The apostrophe character, used in the interpolated SQL below. -/
def sq : Char := Char.ofNat 39

/-- Rust `password.replace(single_quote, backslash single_quote)`
(database_service.rs:171). -/
def escapeQuotes (s : List Char) : List Char :=
  s.flatMap fun c => if c = sq then ['\\', sq] else [c]

/-- Prefix for tenant database names (`DB_PREFIX = "hangardb"`). -/
def DB_PREFIX : List Char := String.toList "hangardb"

/-- Embedding of `execute_mariadb_provisioning`
(database_service.rs:140-204): validate both identifiers before doing
anything, then acquire a connection and run CREATE DATABASE, CREATE USER,
GRANT and FLUSH PRIVILEGES in order, stopping at the first failure. -/
def execute_mariadb_provisioning (acquireOk : Bool) (execOk : List Char → Bool)
    (db_name username password : List Char) :
    Except AppError Unit × List (List Char) :=
  if !(valid_identifier db_name && valid_identifier username) then
    (.error (.BadRequest "Invalid identifier"), [])
  else if !acquireOk then (.error (.DatabaseError .ProvisioningFailed), [])
  else
    let create_db_sql := String.toList "CREATE DATABASE `" ++ db_name ++
      String.toList "` CHARACTER SET utf8mb4 COLLATE utf8mb4_general_ci"
    if !execOk create_db_sql then
      (.error (.DatabaseError .ProvisioningFailed), [create_db_sql])
    else
      let escaped_password := escapeQuotes password
      let create_user_sql := String.toList "CREATE USER `" ++ username ++
        String.toList ("`@" ++ "\x27%\x27 IDENTIFIED BY \x27") ++ escaped_password ++ [sq]
      if !execOk create_user_sql then
        (.error (.DatabaseError .ProvisioningFailed), [create_db_sql, create_user_sql])
      else
        let grant_sql := String.toList "GRANT SELECT, INSERT, UPDATE, DELETE, CREATE, DROP, INDEX, ALTER, CREATE TEMPORARY TABLES, LOCK TABLES ON `" ++
          db_name ++ String.toList "`.* TO `" ++ username ++
          String.toList ("`@" ++ "\x27%\x27")
        if !execOk grant_sql then
          (.error (.DatabaseError .ProvisioningFailed), [create_db_sql, create_user_sql, grant_sql])
        else
          let flush_sql := String.toList "FLUSH PRIVILEGES"
          if !execOk flush_sql then
            (.error (.DatabaseError .ProvisioningFailed),
              [create_db_sql, create_user_sql, grant_sql, flush_sql])
          else (.ok (), [create_db_sql, create_user_sql, grant_sql, flush_sql])

/-! ### Data model (src/model/project.rs, src/model/database.rs)

Store-level strings are embedded as `String`; env-var maps as association
lists (Rust `HashMap` iteration order is irrelevant to the claims). -/

/-- Project source kinds (src/model/project.rs). -/
inductive ProjectSourceType
  | direct
  | github
  deriving DecidableEq, Repr

/-- One row of the `projects` table. -/
structure Project where
  id : Int
  name : String
  owner : String
  container_name : String
  source : ProjectSourceType
  source_url : String
  source_branch : Option String
  source_root_dir : Option String
  deployed_image_tag : String
  deployed_image_digest : String
  env_vars : Option (List (String × String))
  persistent_volume_path : Option String
  volume_name : Option String
  deriving DecidableEq, Repr

/-- One row of the `databases` table. -/
structure DatabaseRow where
  owner_login : String
  database_name : String
  username : String
  encrypted_password : String
  project_id : Option Int
  deriving DecidableEq, Repr

/-- The control-plane SQL store: projects, participant pairs and
database rows. -/
structure Store where
  projects : List Project
  participants : List (Int × String)
  databases : List DatabaseRow
  deriving DecidableEq, Repr

/-! ### Store lookups and access checks (src/services/project_service.rs) -/

/-- Embedding of `get_project_by_id_for_user`
(project_service.rs:175-210).  Admins see any project; otherwise the SQL
joins `project_participants` and accepts the row when the caller is the
owner **or** a participant of the project. -/
def get_project_by_id_for_user (store : Store) (project_id : Int)
    (user_login : String) (is_admin : Bool) : Option Project :=
  if is_admin then store.projects.find? (fun p => p.id == project_id)
  else store.projects.find? (fun p =>
    p.id == project_id && (p.owner == user_login || store.participants.contains (p.id, user_login)))

/-- Embedding of `get_project_by_id_and_owner`
(project_service.rs:122-154), the owner-only access check used by purge
and participant management. -/
def get_project_by_id_and_owner (store : Store) (project_id : Int)
    (owner : String) (is_admin : Bool) : Option Project :=
  if is_admin then store.projects.find? (fun p => p.id == project_id)
  else store.projects.find? (fun p => p.id == project_id && p.owner == owner)

/-- Embedding of `get_project_by_container_name`
(project_service.rs:416-430). -/
def get_project_by_container_name (store : Store) (container_name : String) : Option Project :=
  store.projects.find? (fun p => p.container_name == container_name)

/-- Embedding of `check_project_name_exists` (project_service.rs:7-15). -/
def check_project_name_exists (store : Store) (name : String) : Bool :=
  store.projects.any (fun p => p.name == name)

/-- Embedding of `check_owner_exists` (project_service.rs:17-25). -/
def check_owner_exists (store : Store) (owner : String) : Bool :=
  store.projects.any (fun p => p.owner == owner)

/-- Embedding of `check_database_exists_for_owner`
(database_service.rs:31-43). -/
def check_database_exists_for_owner (store : Store) (owner : String) : Bool :=
  store.databases.any (fun d => d.owner_login == owner)

/-! ### Row-update statements (src/services/project_service.rs)

Each of these is one standalone SQL UPDATE on the pool (no transaction). -/

/-- Embedding of `update_project_container_name`
(project_service.rs:357-374). -/
def update_project_container_name (store : Store) (project_id : Int)
    (new_container_name : String) : Store :=
  { store with projects := store.projects.map fun p =>
      if p.id == project_id then { p with container_name := new_container_name } else p }

/-- Embedding of `update_project_image_and_digest`
(project_service.rs:376-395): one statement sets both columns. -/
def update_project_image_and_digest (store : Store) (project_id : Int)
    (new_image_tag new_image_digest : String) : Store :=
  { store with projects := store.projects.map fun p =>
      if p.id == project_id then
        { p with deployed_image_tag := new_image_tag, deployed_image_digest := new_image_digest }
      else p }

/-- Embedding of `update_project_source_url`
(project_service.rs:397-414). -/
def update_project_source_url (store : Store) (project_id : Int)
    (new_source_url : String) : Store :=
  { store with projects := store.projects.map fun p =>
      if p.id == project_id then { p with source_url := new_source_url } else p }

/-- Embedding of `update_project_env_vars` (project_service.rs:334-355).
The stored value is the encrypted map; encryption of each value draws a
fresh nonce, so the ciphertext map is supplied by the `encryptEnv`
oracle of the caller. -/
def update_project_env_vars (store : Store) (project_id : Int)
    (encrypted_vars : List (String × String)) : Store :=
  { store with projects := store.projects.map fun p =>
      if p.id == project_id then { p with env_vars := some encrypted_vars } else p }

/-! ### Database provisioning records (src/services/database_service.rs) -/

/-- Embedding of `provision_database` (database_service.rs:51-111), the
standalone provisioning call.  `password` stands for the freshly
generated 24-character password and `encPw` for the base64 ciphertext
stored for it; `insertOk` is the outcome of the control-plane INSERT. -/
def provision_database (ownerHasDb acquireOk : Bool) (execOk : List Char → Bool)
    (insertOk : Bool) (owner_login password encPw : String) :
    Except AppError DatabaseRow :=
  if ownerHasDb then .error (.DatabaseError .DatabaseAlreadyExists)
  else
    let db_name := "hangardb_" ++ owner_login
    let username := owner_login
    match (execute_mariadb_provisioning acquireOk execOk
        db_name.toList username.toList password.toList).1 with
    | .error e => .error e
    | .ok () =>
      if !insertOk then .error .InternalServerError
      else .ok { owner_login := owner_login, database_name := db_name,
                 username := username, encrypted_password := encPw, project_id := none }

/-- Embedding of `provision_and_link_database_tx`
(database_service.rs:314-363), the deploy-path provisioning that runs
inside the SQL transaction.  Note the source sets
`username = db_name.clone()`. -/
def provision_and_link_database_tx (acquireOk : Bool) (execOk : List Char → Bool)
    (insertOk : Bool) (owner_login password encPw : String) (project_id : Int) :
    Except AppError DatabaseRow :=
  let db_name := "hangardb_" ++ owner_login
  let username := db_name
  match (execute_mariadb_provisioning acquireOk execOk
      db_name.toList username.toList password.toList).1 with
  | .error e => .error e
  | .ok () =>
    if !insertOk then .error (.ProjectError .ProjectCreationFailedWithDatabaseError)
    else .ok { owner_login := owner_login, database_name := db_name,
               username := username, encrypted_password := encPw,
               project_id := some project_id }

/-! ### Remaining validators (src/services/validation_service.rs) -/

/-- Env-var keys refused outright (validation_service.rs:78-81). -/
def FORBIDDEN_ENV_VARS : List String :=
  ["PATH", "LD_PRELOAD", "DOCKER_HOST", "HOST", "HOSTNAME", "TRAEFIK_ENABLE"]

/-- Rust `str::eq_ignore_ascii_case`. -/
def eqIgnoreAsciiCase (a b : String) : Bool :=
  a.toList.map asciiLower == b.toList.map asciiLower

/-- Whether one env-var key is forbidden (validation_service.rs:85-87):
case-insensitively equal to a forbidden name, or uppercasing to a
`TRAEFIK_` prefix. -/
def forbiddenEnvKey (key : String) : Bool :=
  FORBIDDEN_ENV_VARS.any (fun f => eqIgnoreAsciiCase key f) ||
    (String.toList "TRAEFIK_").isPrefixOf (key.toList.map asciiUpper)

/-- Embedding of `validate_env_vars` (validation_service.rs:76-92); the
error names the offending key. -/
def validate_env_vars (vars : List (String × String)) : Except AppError Unit :=
  match vars.find? (fun kv => forbiddenEnvKey kv.1) with
  | some kv => .error (.ProjectError (.ForbiddenEnvVar kv.1))
  | none => .ok ()

/-- Rust `str::contains(needle)` on character lists. -/
def containsSub (needle : List Char) : List Char → Bool
  | [] => needle.isEmpty
  | c :: rest => needle.isPrefixOf (c :: rest) || containsSub needle rest

/-- Paths a persistent volume may not target (validation_service.rs:110). -/
def FORBIDDEN_PATHS : List String :=
  ["/", "/etc", "/bin", "/sbin", "/usr", "/boot", "/dev", "/lib", "/proc", "/sys"]

/-- Embedding of `validate_volume_path` (validation_service.rs:95-117). -/
def validate_volume_path (path : String) : Except AppError Unit :=
  if path.toList.isEmpty then .error (.ProjectError .InvalidVolumePath)
  else if !(path.toList.head? = some '/') then .error (.ProjectError .InvalidVolumePath)
  else if containsSub (String.toList "..") path.toList then .error (.ProjectError .InvalidVolumePath)
  else if FORBIDDEN_PATHS.contains path then .error (.ProjectError .InvalidVolumePath)
  else .ok ()

/-- Embedding of `validate_source_root_dir`
(validation_service.rs:123-151).  The parent-directory component walk of
the source is subsumed by the substring check on `..` that precedes it
and is therefore not repeated here. -/
def validate_source_root_dir (path : String) : Except AppError Unit :=
  if path.toList.isEmpty then .ok ()
  else if containsSub (String.toList "..") path.toList || path.toList.head? = some '/' ||
      path.toList.head? = some '\\' then
    .error (.ProjectError .InvalidSourceRootDir)
  else if [".git", ".env", ".ssh"].any (fun f => containsSub (String.toList f) path.toList) then
    .error (.ProjectError .InvalidSourceRootDir)
  else .ok ()

/-- Characters forbidden in an image URL (validation_service.rs:64):
space, dollar, backtick, apostrophe, double quote, backslash. -/
def forbiddenUrlChars : List Char := [' ', '$', Char.ofNat 96, sq, '"', '\\']

/-- Embedding of `validate_image_url` (validation_service.rs:57-70). -/
def validate_image_url (url : String) : Except AppError Unit :=
  if url.toList.isEmpty then .error (.ProjectError .InvalidImageUrl)
  else if url.toList.any (fun c => forbiddenUrlChars.contains c) then
    .error (.ProjectError .InvalidImageUrl)
  else .ok ()

/-! ### Container runtime state (src/services/docker_service.rs)

The runtime is embedded as the sets of containers, volumes and image
tags it holds, plus a trace of every container ever created during the
modelled call (`createdTrace`), which removal does not erase. -/

/-- Runtime adapter state. -/
structure DockerState where
  containers : List String
  volumes : List String
  images : List String
  createdTrace : List String
  deriving DecidableEq, Repr

/-- Combined system state: control-plane store plus container runtime. -/
structure SysState where
  store : Store
  docker : DockerState
  deriving DecidableEq, Repr

/-- Container removal (`remove_container`): stop plus force remove; 404
and 304 count as success, so this never fails in the model. -/
def dockerRemoveContainer (d : DockerState) (name : String) : DockerState :=
  { d with containers := d.containers.filter (fun c => !(c == name)) }

/-- Volume removal (`remove_volume_by_name` with 404 as success). -/
def dockerRemoveVolume (d : DockerState) (name : String) : DockerState :=
  { d with volumes := d.volumes.filter (fun v => !(v == name)) }

/-- Image removal (`remove_image`, force; errors only logged). -/
def dockerRemoveImage (d : DockerState) (tag : String) : DockerState :=
  { d with images := d.images.filter (fun i => !(i == tag)) }

/-- Image pull / build success: the tag becomes present. -/
def dockerAddImage (d : DockerState) (tag : String) : DockerState :=
  { d with images := if d.images.contains tag then d.images else tag :: d.images }

/-- Successful `create_project_container` (docker_service.rs): the
container starts existing, a named volume `hangar-data-<project>` is
created when a persistent volume path is requested, and the creation is
recorded in the trace.  Returns the volume name, when one was made. -/
def dockerCreateContainer (d : DockerState) (container_name project_name : String)
    (volume_path : Option String) : DockerState × Option String :=
  let volume_name := volume_path.map (fun _ => "hangar-data-" ++ project_name)
  let d := { d with containers := container_name :: d.containers,
                    createdTrace := d.createdTrace ++ [container_name] }
  match volume_name with
  | some v => ({ d with volumes := if d.volumes.contains v then d.volumes else v :: d.volumes }, some v)
  | none => (d, none)

/-- One round of `wait_for_container_health`
(project_handler.rs:1004-1024), counting down the remaining attempts;
`running i` is the inspected `state.running` at poll `i`. -/
def waitHealthAux (running : Nat → Bool) : Nat → Nat → Except AppError Unit
  | _, 0 => .error .InternalServerError
  | i, fuel + 1 => if running i then .ok () else waitHealthAux running (i + 1) fuel

/-- Embedding of `wait_for_container_health`: poll up to `max_attempts`
times; the generic internal error when the container never runs. -/
def wait_for_container_health (running : Nat → Bool) (max_attempts : Nat) :
    Except AppError Unit :=
  waitHealthAux running 0 max_attempts

/-! ### Blue-green updater (src/handlers/project_handler.rs)

The handlers are embedded as pure functions over `SysState`.  External
outcomes (image pulls, scans, builds, digest inspection, container
creation, health polls, the outcome of each SQL statement) are oracles
collected in `BGEnv`.  Responses are the HTTP-level outcomes. -/

/-- Oracles and configuration for an update-handler run. -/
structure BGEnv where
  appPrefix : String
  ts : Nat
  pullOk : Bool
  scanOk : Bool
  scanReport : String
  cloneOk : Bool
  cloneErr : AppError
  buildOk : Bool
  digestOf : String → Option String
  decryptOk : Bool
  createOk : Bool
  healthRunning : Nat → Bool
  updNameOk : Bool
  updImgOk : Bool
  updSrcOk : Bool
  updEnvOk : Bool
  encryptEnv : List (String × String) → List (String × String)

/-- Handler outcome: a success / no-change JSON body, or an error. -/
inductive HandlerResponse
  | success (msg : String)
  | noChange (msg : String)
  | failure (e : AppError)
  deriving DecidableEq, Repr

/-- The `BlueGreenDeployment` record of project_handler.rs:101-107. -/
structure BlueGreenDeployment where
  old_container_name : String
  new_container_name : String
  new_image_tag : String
  new_image_digest : String
  deriving DecidableEq, Repr

/-- Embedding of `prepare_direct_source_with_events`
(project_handler.rs:867-936): validate the URL, pull (adding the tag to
the runtime), scan (removing the pulled image again on a failed scan). -/
def prepare_direct_source (env : BGEnv) (image_url : String) (d : DockerState) :
    Except AppError Unit × DockerState :=
  match validate_image_url image_url with
  | .error e => (.error e, d)
  | .ok () =>
    if !env.pullOk then (.error (.ProjectError .ImagePullFailed), d)
    else
      let d := dockerAddImage d image_url
      if !env.scanOk then
        (.error (.ProjectError (.ImageScanFailed env.scanReport)), dockerRemoveImage d image_url)
      else (.ok (), d)

/-- Embedding of `get_image_digest` (project_handler.rs:972-990): a
missing digest removes the image best-effort and maps to the generic
internal error. -/
def get_image_digest (env : BGEnv) (image_tag : String) (d : DockerState) :
    Except AppError String × DockerState :=
  match env.digestOf image_tag with
  | some digest => (.ok digest, d)
  | none => (.error .InternalServerError, dockerRemoveImage d image_tag)

/-- Embedding of `build_image_from_github_source_with_events`
(project_handler.rs:711-769): clone, build a `hangar-local/<name>:<ts>`
image, scan it and remove it again when the scan fails. -/
def build_image_from_github_source (env : BGEnv) (project_name : String)
    (d : DockerState) : Except AppError String × DockerState :=
  if !env.cloneOk then (.error env.cloneErr, d)
  else
    let image_tag := "hangar-local/" ++ project_name ++ ":" ++ toString env.ts
    if !env.buildOk then (.error .InternalServerError, d)
    else
      let d := dockerAddImage d image_tag
      if !env.scanOk then
        (.error (.ProjectError (.ImageScanFailed env.scanReport)), dockerRemoveImage d image_tag)
      else (.ok image_tag, d)

/-- Embedding of `prepare_blue_green_deployment_with_events`
(project_handler.rs:1350-1382): pull and scan only when no old image tag
is given (i.e. for direct image updates), then retrieve the new digest
and name the new container `<app_prefix>-<name>-<unix_seconds>`. -/
def prepare_blue_green_deployment (env : BGEnv) (project : Project)
    (new_image_url : String) (old_image_tag : Option String) (d : DockerState) :
    Except AppError BlueGreenDeployment × DockerState :=
  let prepared : Except AppError Unit × DockerState :=
    if old_image_tag.isNone then prepare_direct_source env new_image_url d else (.ok (), d)
  match prepared with
  | (.error e, d) => (.error e, d)
  | (.ok (), d) =>
    match get_image_digest env new_image_url d with
    | (.error e, d) => (.error e, d)
    | (.ok new_image_digest, d) =>
      (.ok { old_container_name := project.container_name,
             new_container_name :=
               env.appPrefix ++ "-" ++ project.name ++ "-" ++ toString env.ts,
             new_image_tag := new_image_url,
             new_image_digest := new_image_digest }, d)

/-- Embedding of `create_blue_green_deployment_for_env_update`
(project_handler.rs:1384-1401): same image, fresh container name. -/
def create_blue_green_deployment_for_env_update (env : BGEnv) (project : Project) :
    BlueGreenDeployment :=
  { old_container_name := project.container_name,
    new_container_name := env.appPrefix ++ "-" ++ project.name ++ "-" ++ toString env.ts,
    new_image_tag := project.deployed_image_tag,
    new_image_digest := project.deployed_image_digest }

/-- Embedding of `update_project_metadata`
(project_handler.rs:1500-1530): three separate pool statements, executed
in order — container name; image tag and digest together; and, for
direct-source projects, the source URL.  Each oracle says whether the
corresponding UPDATE succeeds; a failure surfaces the generic internal
error and leaves the store as the statements so far made it. -/
def update_project_metadata (env : BGEnv) (project_id : Int)
    (dep : BlueGreenDeployment) (project_source : ProjectSourceType)
    (store : Store) : Except AppError Unit × Store :=
  if !env.updNameOk then (.error .InternalServerError, store)
  else
    let store := update_project_container_name store project_id dep.new_container_name
    if !env.updImgOk then (.error .InternalServerError, store)
    else
      let store := update_project_image_and_digest store project_id
        dep.new_image_tag dep.new_image_digest
      if project_source = ProjectSourceType.direct then
        if !env.updSrcOk then (.error .InternalServerError, store)
        else (.ok (), update_project_source_url store project_id dep.new_image_tag)
      else (.ok (), store)

/-- Embedding of `execute_blue_green_deployment_with_events`
(project_handler.rs:1403-1467): create and start the new container
(removing the new image on failure), health-wait it (tearing the new
container and image down in the background on failure), update the
project metadata (same teardown on failure), then remove the old
container and, in the background, the old image. -/
def execute_blue_green_deployment (env : BGEnv) (project : Project)
    (dep : BlueGreenDeployment) (old_image_to_cleanup : String) (st : SysState) :
    Except AppError Unit × SysState :=
  if !env.createOk then
    (.error (.ProjectError .ContainerCreationFailed),
      { st with docker := dockerRemoveImage st.docker dep.new_image_tag })
  else
    let d := (dockerCreateContainer st.docker dep.new_container_name project.name
      project.persistent_volume_path).1
    let rolledBack :=
      dockerRemoveImage (dockerRemoveContainer d dep.new_container_name) dep.new_image_tag
    match wait_for_container_health env.healthRunning 10 with
    | .error e => (.error e, { st with docker := rolledBack })
    | .ok () =>
      match update_project_metadata env project.id dep project.source st.store with
      | (.error e, store) => (.error e, { store := store, docker := rolledBack })
      | (.ok (), store) =>
        let d := dockerRemoveContainer d dep.old_container_name
        let d := dockerRemoveImage d old_image_to_cleanup
        (.ok (), { store := store, docker := d })

/-- Embedding of `update_project_image_handler`
(project_handler.rs:372-427): access check (owner, participant or
admin), direct-source check, blue-green preparation, the identical-digest
short-circuit answering `no_change`, then the blue-green execution. -/
def update_project_image_handler (env : BGEnv) (caller : String) (is_admin : Bool)
    (project_id : Int) (new_image_url : String) (st : SysState) :
    HandlerResponse × SysState :=
  match get_project_by_id_for_user st.store project_id caller is_admin with
  | none => (.failure (.NotFoundErr "Project not found or you do not have access."), st)
  | some project =>
    if project.source ≠ ProjectSourceType.direct then
      (.failure (.BadRequest "Image update is only supported for direct source projects."), st)
    else
      match prepare_blue_green_deployment env project new_image_url none st.docker with
      | (.error e, d) => (.failure e, { st with docker := d })
      | (.ok dep, d) =>
        if project.deployed_image_digest == dep.new_image_digest then
          (.noChange "The project is already running the latest version of the image.",
            { st with docker := d })
        else if !env.decryptOk then (.failure .InternalServerError, { st with docker := d })
        else
          match execute_blue_green_deployment env project dep dep.new_image_tag
              { st with docker := d } with
          | (.error e, st) => (.failure e, st)
          | (.ok (), st) => (.success "Project image updated successfully without downtime.", st)

/-- Embedding of `rebuild_project_handler` (project_handler.rs:429-494):
access check, github-source check, clone-build-scan, blue-green
preparation (no pull), the identical-digest short-circuit that removes
the freshly built image and answers `no_change`, then the blue-green
execution cleaning up the previous deployed image. -/
def rebuild_project_handler (env : BGEnv) (caller : String) (is_admin : Bool)
    (project_id : Int) (st : SysState) : HandlerResponse × SysState :=
  match get_project_by_id_for_user st.store project_id caller is_admin with
  | none => (.failure (.NotFoundErr "Project not found or you do not have access."), st)
  | some project =>
    if project.source ≠ ProjectSourceType.github then
      (.failure (.BadRequest "Source rebuild is only supported for github source projects."), st)
    else
      match build_image_from_github_source env project.name st.docker with
      | (.error e, d) => (.failure e, { st with docker := d })
      | (.ok new_image_tag, d) =>
        match prepare_blue_green_deployment env project new_image_tag
            (some project.deployed_image_tag) d with
        | (.error e, d) => (.failure e, { st with docker := d })
        | (.ok dep, d) =>
          if project.deployed_image_digest == dep.new_image_digest then
            (.noChange "The project source is already up to date.",
              { st with docker := dockerRemoveImage d new_image_tag })
          else if !env.decryptOk then (.failure .InternalServerError, { st with docker := d })
          else
            match execute_blue_green_deployment env project dep project.deployed_image_tag
                { st with docker := d } with
            | (.error e, st) => (.failure e, st)
            | (.ok (), st) =>
              (.success "Project rebuilt and updated successfully from the latest source.", st)

/-- Embedding of `execute_env_vars_blue_green_deployment`
(project_handler.rs:1560-1627): create the new container from the
currently deployed image, health-wait it (background teardown on
failure), then two separate pool statements — container name, then env
vars — and finally remove the old container. -/
def execute_env_vars_blue_green_deployment (env : BGEnv) (project : Project)
    (dep : BlueGreenDeployment) (env_vars : List (String × String)) (st : SysState) :
    Except AppError Unit × SysState :=
  if !env.createOk then (.error (.ProjectError .ContainerCreationFailed), st)
  else
    let d := (dockerCreateContainer st.docker dep.new_container_name project.name
      project.persistent_volume_path).1
    match wait_for_container_health env.healthRunning 10 with
    | .error e => (.error e, { st with docker := dockerRemoveContainer d dep.new_container_name })
    | .ok () =>
      if !env.updNameOk then (.error .InternalServerError, { st with docker := d })
      else
        let store := update_project_container_name st.store project.id dep.new_container_name
        if !env.updEnvOk then (.error .InternalServerError, { store := store, docker := d })
        else
          let store := update_project_env_vars store project.id (env.encryptEnv env_vars)
          (.ok (), { store := store, docker := dockerRemoveContainer d dep.old_container_name })

/-- Embedding of `update_env_vars_handler` (project_handler.rs:550-574):
validate the new variables, access check (owner, participant or admin),
then the env-vars blue-green swap. -/
def update_env_vars_handler (env : BGEnv) (caller : String) (is_admin : Bool)
    (project_id : Int) (new_env_vars : List (String × String)) (st : SysState) :
    HandlerResponse × SysState :=
  match validate_env_vars new_env_vars with
  | .error e => (.failure e, st)
  | .ok () =>
    match get_project_by_id_for_user st.store project_id caller is_admin with
    | none => (.failure (.NotFoundErr "Project not found or you do not have access."), st)
    | some project =>
      let dep := create_blue_green_deployment_for_env_update env project
      match execute_env_vars_blue_green_deployment env project dep new_env_vars st with
      | (.error e, st) => (.failure e, st)
      | (.ok (), st) =>
        (.success "Environment variables updated successfully. The project has been restarted.", st)

/-! ### Deploy path (src/handlers/project_handler.rs, deploy_project_handler) -/

/-- The deploy request payload (project_handler.rs:33-45). -/
structure DeployPayload where
  project_name : String
  image_url : Option String
  github_repo_url : Option String
  github_branch : Option String
  github_root_dir : Option String
  participants : List String
  env_vars : Option (List (String × String))
  persistent_volume_path : Option String
  create_database : Option Bool
  deriving Repr

/-- The `DeploymentSource` record of project_handler.rs:94-99. -/
structure DeploymentSource where
  source_type : ProjectSourceType
  source_url : String
  image_tag : String
  deriving DecidableEq, Repr

/-- Oracles and configuration for a deploy-handler run. -/
structure DeployEnv where
  appPrefix : String
  ts : Nat
  pullOk : Bool
  scanOk : Bool
  scanReport : String
  cloneOk : Bool
  cloneErr : AppError
  buildOk : Bool
  digestOf : String → Option String
  createOk : Bool
  healthRunning : Nat → Bool
  removeVolumeOk : Bool
  beginOk : Bool
  insertProjectOk : Bool
  mariadbAcquireOk : Bool
  mariadbExecOk : List Char → Bool
  insertDatabaseOk : Bool
  insertParticipantsOk : Bool
  commitOk : Bool
  newId : Int
  password : String
  encPw : String
  encryptEnv : List (String × String) → List (String × String)

/-- View of the deploy oracles as blue-green oracles, for the shared
source-preparation helpers. -/
def DeployEnv.toBG (env : DeployEnv) : BGEnv :=
  { appPrefix := env.appPrefix, ts := env.ts, pullOk := env.pullOk, scanOk := env.scanOk,
    scanReport := env.scanReport, cloneOk := env.cloneOk, cloneErr := env.cloneErr,
    buildOk := env.buildOk, digestOf := env.digestOf, decryptOk := true,
    createOk := env.createOk, healthRunning := env.healthRunning, updNameOk := true,
    updImgOk := true, updSrcOk := true, updEnvOk := true, encryptEnv := env.encryptEnv }

/-- Embedding of `validate_deploy_payload` (project_handler.rs:580-600):
normalises the project name in place, then validates env vars, volume
path and source root dir when present. -/
def validate_deploy_payload (payload : DeployPayload) : Except AppError DeployPayload :=
  match validate_project_name payload.project_name.toList with
  | .error e => .error e
  | .ok name =>
    let payload := { payload with project_name := String.mk name }
    match payload.env_vars.elim (.ok ()) validate_env_vars with
    | .error e => .error e
    | .ok () =>
      match payload.persistent_volume_path.elim (.ok ()) validate_volume_path with
      | .error e => .error e
      | .ok () =>
        match payload.github_root_dir.elim (.ok ()) validate_source_root_dir with
        | .error e => .error e
        | .ok () => .ok payload

/-- Embedding of `check_deployment_preconditions`
(project_handler.rs:628-651). -/
def check_deployment_preconditions (store : Store) (user_login : String)
    (payload : DeployPayload) : Except AppError Unit :=
  if check_owner_exists store user_login then .error (.ProjectError .OwnerAlreadyExists)
  else if check_project_name_exists store payload.project_name then
    .error (.ProjectError .ProjectNameTaken)
  else if payload.create_database.getD false && check_database_exists_for_owner store user_login then
    .error (.DatabaseError .DatabaseAlreadyExists)
  else .ok ()

/-- Embedding of `prepare_participants` (project_handler.rs:653-666):
deduplicate and refuse the owner among the participants. -/
def prepare_participants (participants : List String) (user_login : String) :
    Except AppError (List String) :=
  let deduped := participants.dedup
  if deduped.contains user_login then .error (.ProjectError .OwnerCannotBeParticipant)
  else .ok deduped

/-- Embedding of `prepare_deployment_source_with_events`
(project_handler.rs:668-705). -/
def prepare_deployment_source (env : DeployEnv) (payload : DeployPayload)
    (d : DockerState) : Except AppError DeploymentSource × DockerState :=
  match payload.image_url with
  | some image_url =>
    (match prepare_direct_source env.toBG image_url d with
     | (.error e, d) => (.error e, d)
     | (.ok (), d) =>
       (.ok { source_type := .direct, source_url := image_url, image_tag := image_url }, d))
  | none =>
    match payload.github_repo_url with
    | some repo_url =>
      (match build_image_from_github_source env.toBG payload.project_name d with
       | (.error e, d) => (.error e, d)
       | (.ok tag, d) =>
         (.ok { source_type := .github, source_url := repo_url, image_tag := tag }, d))
    | none =>
      (.error (.BadRequest
        ("You must provide either an " ++ "\x27image_url\x27 or a \x27github_repo_url\x27.")), d)

/-- Embedding of `create_container_with_rollback`
(project_handler.rs:942-970): on failure the image is removed
best-effort; on success the container (and maybe a volume) exists. -/
def create_container_with_rollback (env : DeployEnv) (container_name project_name : String)
    (persistent_volume_path : Option String) (image_tag : String) (d : DockerState) :
    Except AppError (Option String) × DockerState :=
  if !env.createOk then
    (.error (.ProjectError .ContainerCreationFailed), dockerRemoveImage d image_tag)
  else
    let (d, volume_name) := dockerCreateContainer d container_name project_name
      persistent_volume_path
    (.ok volume_name, d)

/-- Docker rollback of `persist_project_with_rollback_and_events`
(project_handler.rs:1106-1117): container, volume, then image. -/
def rollbackDockerResources (d : DockerState) (container_name : String)
    (volume_name : Option String) (image_tag : String) : DockerState :=
  let d := dockerRemoveContainer d container_name
  let d := match volume_name with
    | some v => dockerRemoveVolume d v
    | none => d
  dockerRemoveImage d image_tag

/-- Embedding of `persist_project_with_rollback_and_events`
(project_handler.rs:1052-1119): one SQL transaction inserting the
project row, provisioning and inserting the database row when requested,
and inserting the participants; the store changes land only on commit.
On a failed step inside the transaction, the Docker resources are rolled
back; a commit failure surfaces the internal error without that
rollback. -/
def persist_project_with_rollback (env : DeployEnv) (payload : DeployPayload)
    (user_login container_name : String) (source : DeploymentSource)
    (deployed_image_digest : String) (volume_name : Option String)
    (participants : List String) (st : SysState) : Except AppError Project × SysState :=
  let rolled :=
    rollbackDockerResources st.docker container_name volume_name source.image_tag
  if !env.beginOk then (.error .InternalServerError, st)
  else if !env.insertProjectOk then (.error .InternalServerError, { st with docker := rolled })
  else
    let new_project : Project :=
      { id := env.newId, name := payload.project_name, owner := user_login,
        container_name := container_name, source := source.source_type,
        source_url := source.source_url, source_branch := payload.github_branch,
        source_root_dir := payload.github_root_dir, deployed_image_tag := source.image_tag,
        deployed_image_digest := deployed_image_digest,
        env_vars := payload.env_vars.map env.encryptEnv,
        persistent_volume_path := payload.persistent_volume_path, volume_name := volume_name }
    let dbStep : Except AppError (Option DatabaseRow) :=
      if payload.create_database.getD false then
        match provision_and_link_database_tx env.mariadbAcquireOk env.mariadbExecOk
            env.insertDatabaseOk user_login env.password env.encPw env.newId with
        | .error e => .error e
        | .ok row => .ok (some row)
      else .ok none
    match dbStep with
    | .error e => (.error e, { st with docker := rolled })
    | .ok dbRow =>
      if !env.insertParticipantsOk then (.error .InternalServerError, { st with docker := rolled })
      else if !env.commitOk then (.error .InternalServerError, st)
      else
        (.ok new_project,
          { store :=
              { projects := st.store.projects ++ [new_project],
                participants := st.store.participants ++
                  participants.map (fun p => (env.newId, p)),
                databases := st.store.databases ++ dbRow.toList },
            docker := st.docker })

/-- Embedding of `deploy_project_handler` (project_handler.rs:113-217).
The health-wait block reproduces the source exactly: on a failed health
wait the container, volume and image are rolled back (a volume-removal
failure propagating through the question mark), after which control
**falls through to the persistence step** — the source never returns the
health-wait error. -/
def deploy_project_handler (env : DeployEnv) (payload : DeployPayload)
    (user_login : String) (st : SysState) : Except AppError Project × SysState :=
  match validate_deploy_payload payload with
  | .error e => (.error e, st)
  | .ok payload =>
    match check_deployment_preconditions st.store user_login payload with
    | .error e => (.error e, st)
    | .ok () =>
      match prepare_participants payload.participants user_login with
      | .error e => (.error e, st)
      | .ok participants =>
        match prepare_deployment_source env payload st.docker with
        | (.error e, d) => (.error e, { st with docker := d })
        | (.ok source, d) =>
          match get_image_digest env.toBG source.image_tag d with
          | (.error e, d) => (.error e, { st with docker := d })
          | (.ok deployed_image_digest, d) =>
            let container_name := env.appPrefix ++ "-" ++ payload.project_name
            match create_container_with_rollback env container_name payload.project_name
                payload.persistent_volume_path source.image_tag d with
            | (.error e, d) => (.error e, { st with docker := d })
            | (.ok volume_name, d) =>
              let healthBlock : Except AppError Unit × DockerState :=
                match wait_for_container_health env.healthRunning 10 with
                | .ok () => (.ok (), d)
                | .error _ =>
                  let d := dockerRemoveContainer d container_name
                  match volume_name with
                  | some v =>
                    if !env.removeVolumeOk then (.error .InternalServerError, d)
                    else (.ok (), dockerRemoveImage (dockerRemoveVolume d v) source.image_tag)
                  | none => (.ok (), dockerRemoveImage d source.image_tag)
              match healthBlock with
              | (.error e, d) => (.error e, { st with docker := d })
              | (.ok (), d) =>
                persist_project_with_rollback env payload user_login container_name source
                  deployed_image_digest volume_name participants { st with docker := d }

/-! ### Event plane (src/sse/manager.rs, src/sse/emitter.rs, src/sse/tasks.rs) -/

/-- Container status union (src/sse/types.rs). -/
inductive ContainerStatus
  | created
  | restarting
  | running
  | removing
  | paused
  | exited
  | dead
  | unknown
  deriving DecidableEq, Repr

/-- The payload of a container-status SSE event
(`ContainerStatusEvent::new`). -/
structure ContainerStatusEvent where
  project_id : Int
  project_name : String
  container_name : String
  status : ContainerStatus
  deriving DecidableEq, Repr

/-- Where an event was emitted: a per-project channel or the admin
channel. -/
inductive Emission
  | toProject (project_id : Int) (event : ContainerStatusEvent)
  | toAdmin (event : ContainerStatusEvent)
  deriving DecidableEq, Repr

/-- Action-to-status translation of `handle_docker_event`
(tasks.rs:80-89); `none` for every action the listener ignores. -/
def map_event_action : Option String → Option ContainerStatus
  | none => none
  | some a =>
    if a = "create" then some .created
    else if a = "restart" then some .restarting
    else if a = "start" || a = "unpause" then some .running
    else if a = "stop" || a = "die" then some .exited
    else if a = "kill" || a = "oom" then some .dead
    else if a = "pause" then some .paused
    else none

/-- Rust `name.trim_start_matches(slash)` (tasks.rs:95). -/
def stripLeadingSlashes (s : String) : String :=
  String.mk (s.toList.dropWhile (fun c => c = '/'))

/-- Embedding of `handle_docker_event` (tasks.rs:78-123): translate the
action, strip leading slashes from the actor name, resolve it to a
project by store lookup, emit a container-status event on the project
channel, and for `Dead` additionally on the admin channel.  `actorName`
is the `name` attribute of the event actor, when present. -/
def handle_docker_event (store : Store) (action : Option String)
    (actorName : Option String) : List Emission :=
  match map_event_action action with
  | none => []
  | some status =>
    match actorName with
    | none => []
    | some raw =>
      let container_name := stripLeadingSlashes raw
      if container_name.toList.isEmpty then []
      else
        match get_project_by_container_name store container_name with
        | none => []
        | some project =>
          let event : ContainerStatusEvent :=
            { project_id := project.id, project_name := project.name,
              container_name := container_name, status := status }
          Emission.toProject project.id event ::
            (if status = .dead then [Emission.toAdmin event] else [])

/-! The per-project and per-creation channel registries of `SseManager`
are embedded as association lists from key to live-subscriber count (a
tokio broadcast channel delivers a sent value only to the receivers
alive at send time and buffers nothing for receivers that attach later,
so the subscriber count is the whole state that emission can observe).
Emission returns the new registry together with the number of
subscribers the event was delivered to. -/

/-- Live subscriber count after the `or_insert` lookup of
`emit_to_project` / `emit_to_creation`. -/
def subscriberCount [BEq κ] (registry : List (κ × Nat)) (key : κ) : Nat :=
  ((registry.find? (fun e => e.1 == key)).map (fun e => e.2)).getD 0

/-- Lazy channel creation (`map.entry(key).or_insert_with(...)`): a new
channel starts with zero receivers. -/
def orInsertChannel [BEq κ] (registry : List (κ × Nat)) (key : κ) : List (κ × Nat) :=
  if (registry.find? (fun e => e.1 == key)).isSome then registry else registry ++ [(key, 0)]

/-- Embedding of `cleanup_project_channel` / `cleanup_creation_channel`
(manager.rs:287-327): remove the entry when its receiver count is zero. -/
def cleanupChannel [BEq κ] (registry : List (κ × Nat)) (key : κ) : List (κ × Nat) :=
  if subscriberCount registry key = 0 then registry.filter (fun e => !(e.1 == key))
  else registry

/-- Embedding of `emit_to_project` (manager.rs:143-176): create the
channel lazily, read its receiver count, and either drop the event and
clean the channel up (zero subscribers) or deliver it to every current
receiver.  The second component is the number of receivers the event
reached. -/
def emit_to_project (registry : List (Int × Nat)) (project_id : Int) :
    List (Int × Nat) × Nat :=
  let registry := orInsertChannel registry project_id
  let count := subscriberCount registry project_id
  if count = 0 then (cleanupChannel registry project_id, 0)
  else (registry, count)

/-- Embedding of `emit_to_creation` (manager.rs:187-227), identical
logic keyed by user login. -/
def emit_to_creation (registry : List (String × Nat)) (user_login : String) :
    List (String × Nat) × Nat :=
  let registry := orInsertChannel registry user_login
  let count := subscriberCount registry user_login
  if count = 0 then (cleanupChannel registry user_login, 0)
  else (registry, count)

/-- Decidable equality of `Except` results, for evaluating concrete runs. -/
instance {ε α : Type _} [DecidableEq ε] [DecidableEq α] : DecidableEq (Except ε α) := fun a b =>
  match a, b with
  | .ok x, .ok y => if h : x = y then .isTrue (by rw [h]) else .isFalse (by simp [h])
  | .error x, .error y => if h : x = y then .isTrue (by rw [h]) else .isFalse (by simp [h])
  | .ok _, .error _ => .isFalse (by simp)
  | .error _, .ok _ => .isFalse (by simp)

/-! ### Concrete values used in evaluated runs -/

/-- The record the deploy-path transactional provisioning inserts for
owner `alice` when everything succeeds. -/
def txRowAlice : DatabaseRow :=
  { owner_login := "alice", database_name := "hangardb_alice",
    username := "hangardb_alice", encrypted_password := "enc", project_id := some 1 }

/-- The one-project store used to evaluate the event listener. -/
def listenerDemoProject : Project :=
  { id := 1, name := "demo", owner := "alice", container_name := "hangar-demo",
    source := .direct, source_url := "nginx:1.25", source_branch := none,
    source_root_dir := none, deployed_image_tag := "nginx:1.25",
    deployed_image_digest := "d", env_vars := none,
    persistent_volume_path := none, volume_name := none }

/-- The store holding only `listenerDemoProject`. -/
def listenerDemoStore : Store :=
  { projects := [listenerDemoProject], participants := [], databases := [] }

/-- A blue-green oracle environment where every external step succeeds. -/
def bgEnvAllOk : BGEnv :=
  { appPrefix := "hangar", ts := 1700000000, pullOk := true, scanOk := true,
    scanReport := "", cloneOk := true, cloneErr := .InternalServerError, buildOk := true,
    digestOf := fun _ => none, decryptOk := true, createOk := true,
    healthRunning := fun _ => true, updNameOk := true, updImgOk := true,
    updSrcOk := true, updEnvOk := true, encryptEnv := id }

/-- A deployed direct-source project used in concrete runs. -/
def bgProject : Project :=
  { id := 1, name := "demo", owner := "alice", container_name := "hangar-demo",
    source := .direct, source_url := "nginx:1.25", source_branch := none,
    source_root_dir := none, deployed_image_tag := "nginx:1.25",
    deployed_image_digest := "sha-old", env_vars := none,
    persistent_volume_path := none, volume_name := none }

/-- A store holding `bgProject`, with `bob` as its only participant. -/
def bgStore : Store :=
  { projects := [bgProject], participants := [(1, "bob")], databases := [] }

/-- An empty container runtime. -/
def emptyDocker : DockerState :=
  { containers := [], volumes := [], images := [], createdTrace := [] }

/-- The blue-green deployment record swapping `bgProject` to a new
image. -/
def bgDep : BlueGreenDeployment :=
  { old_container_name := "hangar-demo",
    new_container_name := "hangar-demo-1700000000",
    new_image_tag := "nginx:1.26", new_image_digest := "sha-new" }

/-- A deployed github-source project used in concrete runs. -/
def ghProject : Project :=
  { id := 2, name := "site", owner := "carol", container_name := "hangar-site",
    source := .github, source_url := "https://github.com/carol/site",
    source_branch := none, source_root_dir := none,
    deployed_image_tag := "hangar-local/site:1600000000",
    deployed_image_digest := "sha-gh", env_vars := none,
    persistent_volume_path := none, volume_name := none }

/-- A store holding only `ghProject`. -/
def ghStore : Store := { projects := [ghProject], participants := [], databases := [] }

/-- Deploy oracles where every external system succeeds except the
health poll: the container never reports `running`. -/
def deployEnvUnhealthy : DeployEnv :=
  { appPrefix := "hangar", ts := 1700000000, pullOk := true, scanOk := true,
    scanReport := "", cloneOk := true, cloneErr := .InternalServerError, buildOk := true,
    digestOf := fun _ => some "sha256:demo", createOk := true,
    healthRunning := fun _ => false, removeVolumeOk := true, beginOk := true,
    insertProjectOk := true, mariadbAcquireOk := true, mariadbExecOk := fun _ => true,
    insertDatabaseOk := true, insertParticipantsOk := true, commitOk := true,
    newId := 1, password := "pw", encPw := "enc", encryptEnv := id }

/-- The direct deploy request for project `demo` by `alice`. -/
def deployPayloadDemo : DeployPayload :=
  { project_name := "demo", image_url := some "nginx:1.25", github_repo_url := none,
    github_branch := none, github_root_dir := none, participants := [],
    env_vars := none, persistent_volume_path := none, create_database := some false }

/-- The system state before the deploy: empty store, empty runtime. -/
def emptySys : SysState :=
  { store := { projects := [], participants := [], databases := [] },
    docker := emptyDocker }

/-- The Project row the deploy inserts for `demo`. -/
def deployDemoRow : Project :=
  { id := 1, name := "demo", owner := "alice", container_name := "hangar-demo",
    source := .direct, source_url := "nginx:1.25", source_branch := none,
    source_root_dir := none, deployed_image_tag := "nginx:1.25",
    deployed_image_digest := "sha256:demo", env_vars := none,
    persistent_volume_path := none, volume_name := none }

/-! ## Helper lemmas -/

/-- Every character occupies at least one UTF-8 byte. -/
theorem le_utf8Len (s : List Char) : s.length ≤ utf8Len s := by
  induction s with
  | nil => simp [utf8Len]
  | cons c cs ih =>
    have hc : 1 ≤ charUtf8Size c := by
      unfold charUtf8Size
      repeat' split
      all_goals omega
    simp only [utf8Len, List.map_cons, List.sum_cons, List.length_cons] at *
    omega

/-- Identifier-legal characters are ASCII, hence one UTF-8 byte each. -/
theorem utf8Len_eq_length_of_allowed {s : List Char}
    (h : s.all allowedIdentChar = true) : utf8Len s = s.length := by
  induction s with
  | nil => simp [utf8Len]
  | cons c cs ih =>
    simp only [List.all_cons, Bool.and_eq_true] at h
    have hc : charUtf8Size c = 1 := by
      have : c.toNat < 0x80 := by
        have := h.1
        unfold allowedIdentChar isAsciiLowercase isAsciiUppercase isAsciiDigit at this
        simp only [Bool.or_eq_true, Bool.and_eq_true, decide_eq_true_eq] at this
        rcases this with ((h | h) | h) | h
        · omega
        · omega
        · omega
        · rw [h]; decide
      simp [charUtf8Size, this]
    simp only [utf8Len, List.map_cons, List.sum_cons, List.length_cons] at *
    rw [hc, ih h.2]
    omega

/-! ## C7 — project-name validation -/

/-- C7 counterexample: `validate_project_name` accepts `"My-App"`
(returning `"my-app"`), although `"My-App"` does not match `[a-z0-9-]+`,
so the claimed acceptance condition is not necessary for acceptance. -/
theorem validate_project_name_uppercase_counterexample :
    validate_project_name (String.toList "My-App") = .ok (String.toList "my-app") ∧
    spec_accepts_project_name (String.toList "My-App") = false := by
  exact ⟨by decide, by decide⟩

/-- C7 (amended): `validate_project_name` accepts a name if and only if
it is non-empty, at most 63 bytes, matches `[a-zA-Z0-9-]+` (uppercase
ASCII letters are also accepted), and does not start or end with a
hyphen; acceptance returns the name lowercased and rejection returns
`INVALID_PROJECT_NAME`; a compliant name of length 63 is accepted and
one of length 64 is rejected. -/
theorem validate_project_name_amended :
    (∀ name : List Char,
      validate_project_name name =
        (if code_accepts_project_name name then .ok (name.map asciiLower)
         else .error (.ProjectError .InvalidProjectName))) ∧
    validate_project_name (List.replicate 63 'a') = .ok (List.replicate 63 'a') ∧
    validate_project_name (List.replicate 64 'a') =
      .error (.ProjectError .InvalidProjectName) := by
  refine ⟨?_, by decide, by decide⟩
  intro name
  unfold validate_project_name code_accepts_project_name
  by_cases h1 : name.isEmpty
  · simp [h1]
  · by_cases h2 : utf8Len name > 63
    · have h2n : ¬ utf8Len name ≤ 63 := by omega
      simp [h1, h2, h2n]
    · have h2y : utf8Len name ≤ 63 := by omega
      by_cases h3 : name.all (fun c => isAsciiAlphanumeric c || c = '-') <;>
        by_cases h4 : name.head? = some '-' <;>
        by_cases h5 : name.getLast? = some '-' <;>
          simp [h1, h2, h2y, h3, h4, h5]

/-! ## C8 — tenant DB identifier validator -/

/-- C8: `valid_identifier` accepts exactly the strings the spec says it
accepts (non-empty, at most 64 characters, first character not a digit,
all characters in `[A-Za-z0-9_]`, uppercasing not in the reserved-word
denylist), and when the database name or the username fails validation,
`execute_mariadb_provisioning` aborts with a bad-request error with no
SQL statement submitted to the tenant server. -/
theorem valid_identifier_spec_and_no_sql_on_invalid :
    (∀ s : List Char, valid_identifier s = spec_accepts_identifier s) ∧
    (∀ (acquireOk : Bool) (execOk : List Char → Bool) (db_name username password : List Char),
      (valid_identifier db_name && valid_identifier username) = false →
      execute_mariadb_provisioning acquireOk execOk db_name username password =
        (.error (.BadRequest "Invalid identifier"), [])) := by
  constructor
  · intro s
    match s with
    | [] => decide
    | c :: cs =>
      unfold valid_identifier spec_accepts_identifier
      by_cases hall : (c :: cs).all allowedIdentChar = true
      · have hlen : utf8Len (c :: cs) = (c :: cs).length := utf8Len_eq_length_of_allowed hall
        by_cases h64 : (c :: cs).length ≤ 64
        · have hA : ¬ utf8Len (c :: cs) > 64 := by omega
          by_cases hd : isAsciiDigit c <;>
            by_cases hr : RESERVED.contains ((c :: cs).map asciiUpper) <;>
              simp_all
        · have hA : utf8Len (c :: cs) > 64 := by omega
          simp_all
      · have hall2 : (c :: cs).all allowedIdentChar = false := by
          revert hall
          cases (c :: cs).all allowedIdentChar <;> simp
        by_cases h64 : utf8Len (c :: cs) > 64
        · simp_all
        · have hl : (c :: cs).length ≤ 64 :=
            le_trans (le_utf8Len (c :: cs)) (by omega)
          by_cases hd : isAsciiDigit c <;>
            by_cases hr : RESERVED.contains ((c :: cs).map asciiUpper) <;>
              simp_all
  · intro acquireOk execOk db_name username password h
    unfold execute_mariadb_provisioning
    simp [h]

/-- C8 witness: a database name starting with a digit is refused before
any SQL runs. -/
theorem valid_identifier_spec_and_no_sql_on_invalid_witness :
    execute_mariadb_provisioning true (fun _ => true)
      (String.toList "1bad") (String.toList "gooduser") (String.toList "pw") =
      (.error (.BadRequest "Invalid identifier"), []) :=
  valid_identifier_spec_and_no_sql_on_invalid.2 true (fun _ => true)
    (String.toList "1bad") (String.toList "gooduser") (String.toList "pw") (by decide)

/-! ## C3 — database record naming -/



/-- C3 counterexample: the deploy path's transactional provisioning for
owner `alice` creates a record whose `username` is `hangardb_alice` —
the database name — and not the owner login `alice`. -/
theorem provision_tx_username_counterexample :
    provision_and_link_database_tx true (fun _ => true) true "alice" "pw" "enc" 1 =
      .ok txRowAlice ∧
    txRowAlice.username ≠ "alice" ∧ txRowAlice.username = txRowAlice.database_name := by
  exact ⟨by decide, by decide, by decide⟩

/-- C3 (amended): every created Database record has
`database_name = "hangardb_" ++ owner`; the standalone provisioning call
sets `username = owner_login`, while the deploy path's transactional
provisioning sets `username = database_name = "hangardb_" ++ owner`. -/
theorem provisioning_database_record_fields :
    ∀ (ownerHasDb acquireOk insertOk : Bool) (execOk : List Char → Bool)
      (owner password encPw : String) (pid : Int) (row : DatabaseRow),
      (provision_database ownerHasDb acquireOk execOk insertOk owner password encPw =
          .ok row →
        row.database_name = "hangardb_" ++ owner ∧ row.username = owner) ∧
      (provision_and_link_database_tx acquireOk execOk insertOk owner password encPw pid =
          .ok row →
        row.database_name = "hangardb_" ++ owner ∧
        row.username = "hangardb_" ++ owner) := by
  intro ownerHasDb acquireOk insertOk execOk owner password encPw pid row
  constructor
  · intro h
    simp only [provision_database] at h
    split at h
    · cases h
    · split at h
      · cases h
      · split at h
        · cases h
        · cases h
          exact ⟨rfl, rfl⟩
  · intro h
    simp only [provision_and_link_database_tx] at h
    split at h
    · cases h
    · split at h
      · cases h
      · cases h
        exact ⟨rfl, rfl⟩

/-- C3 witness: both provisioning paths evaluated for owner `alice`. -/
theorem provisioning_database_record_fields_witness :
    (("hangardb_alice" : String) = "hangardb_" ++ "alice" ∧
      ("alice" : String) = "alice") ∧
    (("hangardb_alice" : String) = "hangardb_" ++ "alice" ∧
      ("hangardb_alice" : String) = "hangardb_" ++ "alice") :=
  ⟨(provisioning_database_record_fields false true true (fun _ => true)
      "alice" "pw" "enc" 1
      { owner_login := "alice", database_name := "hangardb_alice",
        username := "alice", encrypted_password := "enc", project_id := none }).1
      (by decide),
   (provisioning_database_record_fields false true true (fun _ => true)
      "alice" "pw" "enc" 1 txRowAlice).2 (by decide)⟩

/-! ## C6 — secrets-at-rest round trip -/

/-- XOR-ing twice with the same keystream is the identity. -/
theorem zipXor_cancel (a : List Nat) :
    ∀ b : List Nat, a.length ≤ b.length → zipXor (zipXor a b) b = a := by
  induction a with
  | nil => intro b _; simp [zipXor]
  | cons x xs ih =>
    intro b h
    cases b with
    | nil => simp at h
    | cons y ys =>
      have hx : (x ^^^ y) ^^^ y = x := by
        rw [Nat.xor_assoc, Nat.xor_self, Nat.xor_zero]
      have hrec := ih ys (by simpa using h)
      simp only [zipXor, List.zipWith_cons_cons] at hrec ⊢
      show ((x ^^^ y) ^^^ y) :: List.zipWith Nat.xor (List.zipWith Nat.xor xs ys) ys = x :: xs
      rw [hx, hrec]

/-- Opening an AEAD seal with the same key and nonce recovers the
message, for every keystream and tag function. -/
theorem aeadOpen_aeadSeal (A : AeadModel) (key nonce m : List Nat) :
    aeadOpen A key nonce (aeadSeal A key nonce m) = some m := by
  have hks : (ksBytes A key nonce m.length).length = m.length := by
    unfold ksBytes; exact List.takeD_length _ _ _
  have hct : (zipXor m (ksBytes A key nonce m.length)).length = m.length := by
    unfold zipXor; rw [List.length_zipWith, hks]; exact Nat.min_self _
  have htag : (tag16 A key nonce (zipXor m (ksBytes A key nonce m.length))).length = 16 := by
    unfold tag16; exact List.takeD_length _ _ _
  unfold aeadSeal aeadOpen
  have hlen : (zipXor m (ksBytes A key nonce m.length) ++
      tag16 A key nonce (zipXor m (ksBytes A key nonce m.length))).length =
      m.length + 16 := by
    rw [List.length_append, hct, htag]
  have hsub : (zipXor m (ksBytes A key nonce m.length) ++
      tag16 A key nonce (zipXor m (ksBytes A key nonce m.length))).length - 16 =
      (zipXor m (ksBytes A key nonce m.length)).length := by omega
  rw [if_neg (by omega)]
  rw [hsub, List.take_left, List.drop_left, if_pos rfl, hct,
    zipXor_cancel m _ (le_of_eq hks.symm)]

/-- C6: for every plaintext (a valid-UTF-8 byte string), every key and
every 12-byte nonce, `decrypt (encrypt m)` succeeds and returns `m`; the
output of `encrypt` is the 12-byte nonce followed by the authenticated
ciphertext.  The AEAD internals are universally quantified, so the law
holds whatever the AES-256-GCM keystream and tag functions are. -/
theorem crypto_decrypt_encrypt_roundtrip (A : AeadModel) (key nonce m : List Nat)
    (hn : nonce.length = NONCE_SIZE) (hm : validUtf8 m = true) :
    decrypt A key (encrypt A key nonce m) = .ok m ∧
    encrypt A key nonce m = nonce ++ aeadSeal A key nonce m := by
  refine ⟨?_, rfl⟩
  unfold encrypt decrypt
  have hlen : (nonce ++ aeadSeal A key nonce m).length =
      NONCE_SIZE + (aeadSeal A key nonce m).length := by
    simp [hn]
  rw [if_neg (by omega)]
  have htake : (nonce ++ aeadSeal A key nonce m).take NONCE_SIZE = nonce := by
    rw [← hn]; exact List.take_left nonce _
  have hdrop : (nonce ++ aeadSeal A key nonce m).drop NONCE_SIZE = aeadSeal A key nonce m := by
    rw [← hn]; exact List.drop_left nonce _
  rw [htake, hdrop, aeadOpen_aeadSeal]
  simp [hm]

/-- C6 witness: the round trip evaluated on a concrete AEAD model, key,
nonce and plaintext. -/
theorem crypto_decrypt_encrypt_roundtrip_witness :
    decrypt { keystream := fun _ _ n => List.replicate n 0xAA,
              tagOf := fun _ _ _ => List.replicate 16 1 }
        (List.replicate 32 0)
        (encrypt { keystream := fun _ _ n => List.replicate n 0xAA,
                   tagOf := fun _ _ _ => List.replicate 16 1 }
          (List.replicate 32 0) (List.replicate 12 7) [104, 105]) = .ok [104, 105] :=
  (crypto_decrypt_encrypt_roundtrip _ (List.replicate 32 0) (List.replicate 12 7)
    [104, 105] (by decide) (by decide)).1

/-! ## C9 — container-runtime event listener -/

/-- C9: the event listener translates actions exactly as the spec table
says (all other actions and missing actors are ignored); when the
stripped container name resolves to a project it emits one
container-status event on that project's channel, plus one on the admin
channel exactly when the status is `Dead`; an unresolved name emits
nothing. -/
theorem handle_docker_event_translation :
    (map_event_action (some "create") = some .created ∧
     map_event_action (some "restart") = some .restarting ∧
     map_event_action (some "start") = some .running ∧
     map_event_action (some "unpause") = some .running ∧
     map_event_action (some "stop") = some .exited ∧
     map_event_action (some "die") = some .exited ∧
     map_event_action (some "kill") = some .dead ∧
     map_event_action (some "oom") = some .dead ∧
     map_event_action (some "pause") = some .paused) ∧
    (∀ a : String,
      a ∉ ["create", "restart", "start", "unpause", "stop", "die", "kill", "oom", "pause"] →
      map_event_action (some a) = none) ∧
    map_event_action none = none ∧
    (∀ (store : Store) (action : Option String) (raw : String) (status : ContainerStatus)
       (project : Project),
      map_event_action action = some status →
      (stripLeadingSlashes raw).toList.isEmpty = false →
      get_project_by_container_name store (stripLeadingSlashes raw) = some project →
      handle_docker_event store action (some raw) =
        Emission.toProject project.id
          { project_id := project.id, project_name := project.name,
            container_name := stripLeadingSlashes raw, status := status } ::
          (if status = .dead then
            [Emission.toAdmin
              { project_id := project.id, project_name := project.name,
                container_name := stripLeadingSlashes raw, status := status }]
          else [])) ∧
    (∀ (store : Store) (action : Option String) (raw : String),
      get_project_by_container_name store (stripLeadingSlashes raw) = none →
      handle_docker_event store action (some raw) = []) ∧
    (∀ (store : Store) (action : Option String),
      handle_docker_event store action none = []) := by
  refine ⟨by decide, ?_, rfl, ?_, ?_, ?_⟩
  · intro a ha
    simp only [List.mem_cons, List.not_mem_nil, or_false, not_or] at ha
    obtain ⟨h1, h2, h3, h4, h5, h6, h7, h8, h9⟩ := ha
    unfold map_event_action
    simp [h1, h2, h3, h4, h5, h6, h7, h8, h9]
  · intro store action raw status project hmap hne hfind
    have hne2 : ¬(stripLeadingSlashes raw).data = [] := by
      intro hx
      simp [String.toList, hx] at hne
    unfold handle_docker_event
    rw [hmap]
    simp [hne2, hfind]
  · intro store action raw hfind
    unfold handle_docker_event
    cases hmap : map_event_action action with
    | none => rfl
    | some status => simp [hfind]
  · intro store action
    unfold handle_docker_event
    cases map_event_action action <;> rfl



/-- C9 witness: a `die` event for container `/hangar-demo` resolved
against a one-project store emits exactly one project-channel event. -/
theorem handle_docker_event_translation_witness :
    handle_docker_event listenerDemoStore (some "die") (some "/hangar-demo") =
      [Emission.toProject 1
        { project_id := 1, project_name := "demo",
          container_name := "hangar-demo", status := .exited }] := by
  rw [handle_docker_event_translation.2.2.2.1 listenerDemoStore (some "die") "/hangar-demo"
    ContainerStatus.exited listenerDemoProject (by decide) (by decide) (by decide)]
  decide

/-! ## C10 — zero-subscriber emission -/

/-- Looking a key up in a registry extended with a fresh zero-receiver
channel finds the same count as before when the key was absent. -/
theorem subscriberCount_orInsert {κ : Type _} [BEq κ] [LawfulBEq κ]
    (registry : List (κ × Nat)) (key : κ) :
    subscriberCount (orInsertChannel registry key) key = subscriberCount registry key := by
  unfold orInsertChannel
  split
  · rfl
  · rename_i hnone
    unfold subscriberCount
    rw [List.find?_append]
    cases hfind : registry.find? (fun e => e.1 == key) with
    | some e => exact absurd (by rw [hfind]; rfl) hnone
    | none =>
      simp [List.find?_cons, beq_self_eq_true]

/-- Dropping every entry of an absent-or-empty key from the extended
registry is dropping it from the original registry. -/
theorem filter_orInsert {κ : Type _} [BEq κ] [LawfulBEq κ]
    (registry : List (κ × Nat)) (key : κ) :
    (orInsertChannel registry key).filter (fun e => !(e.1 == key)) =
      registry.filter (fun e => !(e.1 == key)) := by
  unfold orInsertChannel
  split
  · rfl
  · rw [List.filter_append]
    simp [beq_self_eq_true]

/-- C10: emitting on a per-project or per-creation channel with zero
live subscribers delivers the event to nobody and removes the (lazily
created) channel from the registry; since a tokio broadcast channel
retains nothing for receivers that attach later, the event is lost for
good. -/
theorem emit_with_zero_subscribers_drops_event :
    (∀ (registry : List (Int × Nat)) (project_id : Int),
      subscriberCount registry project_id = 0 →
      emit_to_project registry project_id =
        (registry.filter (fun e => !(e.1 == project_id)), 0)) ∧
    (∀ (registry : List (String × Nat)) (user_login : String),
      subscriberCount registry user_login = 0 →
      emit_to_creation registry user_login =
        (registry.filter (fun e => !(e.1 == user_login)), 0)) := by
  constructor
  · intro registry project_id h
    simp only [emit_to_project]
    simp [cleanupChannel, subscriberCount_orInsert, h, filter_orInsert]
  · intro registry user_login h
    simp only [emit_to_creation]
    simp [cleanupChannel, subscriberCount_orInsert, h, filter_orInsert]

/-- C10 witness: emitting to project 7 on a registry holding only an
idle channel for project 7 delivers to nobody and erases the channel. -/
theorem emit_with_zero_subscribers_drops_event_witness :
    emit_to_project [(7, 0)] 7 = ([], 0) ∧ emit_to_creation [("alice", 0)] "alice" = ([], 0) :=
  ⟨emit_with_zero_subscribers_drops_event.1 [(7, 0)] 7 (by decide),
   emit_with_zero_subscribers_drops_event.2 [("alice", 0)] "alice" (by decide)⟩

/-! ## C4 — blue-green metadata update -/



/-- C4 counterexample: when the first UPDATE (container name) succeeds
and the second (image tag and digest) fails, `update_project_metadata`
returns an error but leaves behind a row whose `container_name` is the
new one while `deployed_image_digest` is still the old one — a
partially-updated row, so the update is not atomic. -/
theorem update_project_metadata_partial_row_counterexample :
    (update_project_metadata { bgEnvAllOk with updImgOk := false } 1 bgDep .direct bgStore).1 =
      .error .InternalServerError ∧
    ((update_project_metadata { bgEnvAllOk with updImgOk := false } 1 bgDep .direct
        bgStore).2.projects.map (fun p => (p.container_name, p.deployed_image_digest))) =
      [("hangar-demo-1700000000", "sha-old")] ∧
    (update_project_metadata { bgEnvAllOk with updImgOk := false } 1 bgDep .direct
        bgStore).2 ≠ bgStore := by
  exact ⟨by decide, by decide, by decide⟩

/-- C4 (amended): the blue-green step-7 metadata update is three
separate single-row UPDATE statements run in order — container name,
then image tag and digest together, then (direct projects only) source
URL.  Only a failure of the *first* statement leaves the Project row
with all its previous values; a later failure leaves the earlier updates
committed, so a partially-updated row is observable.  The env update
path behaves likewise (see `execute_env_vars_blue_green_deployment`). -/
theorem update_project_metadata_amended :
    ∀ (env : BGEnv) (pid : Int) (dep : BlueGreenDeployment) (src : ProjectSourceType)
      (store : Store),
      (env.updNameOk = false →
        update_project_metadata env pid dep src store = (.error .InternalServerError, store)) ∧
      (env.updNameOk = true → env.updImgOk = false →
        update_project_metadata env pid dep src store =
          (.error .InternalServerError,
            update_project_container_name store pid dep.new_container_name)) ∧
      (env.updNameOk = true → env.updImgOk = true → env.updSrcOk = false →
        src = ProjectSourceType.direct →
        update_project_metadata env pid dep src store =
          (.error .InternalServerError,
            update_project_image_and_digest
              (update_project_container_name store pid dep.new_container_name) pid
              dep.new_image_tag dep.new_image_digest)) ∧
      (env.updNameOk = true → env.updImgOk = true → env.updSrcOk = true →
        src = ProjectSourceType.direct →
        update_project_metadata env pid dep src store =
          (.ok (),
            update_project_source_url
              (update_project_image_and_digest
                (update_project_container_name store pid dep.new_container_name) pid
                dep.new_image_tag dep.new_image_digest) pid dep.new_image_tag)) ∧
      (env.updNameOk = true → env.updImgOk = true → src = ProjectSourceType.github →
        update_project_metadata env pid dep src store =
          (.ok (),
            update_project_image_and_digest
              (update_project_container_name store pid dep.new_container_name) pid
              dep.new_image_tag dep.new_image_digest)) := by
  intro env pid dep src store
  refine ⟨?_, ?_, ?_, ?_, ?_⟩
  · intro h1
    unfold update_project_metadata
    simp [h1]
  · intro h1 h2
    unfold update_project_metadata
    simp [h1, h2]
  · intro h1 h2 h3 h4
    unfold update_project_metadata
    simp [h1, h2, h3, h4]
  · intro h1 h2 h3 h4
    unfold update_project_metadata
    simp [h1, h2, h3, h4]
  · intro h1 h2 h3
    unfold update_project_metadata
    simp [h1, h2, h3]

/-- C4 witness: the amended characterisation evaluated at the concrete
failing second statement. -/
theorem update_project_metadata_amended_witness :
    update_project_metadata { bgEnvAllOk with updImgOk := false } 1 bgDep .direct bgStore =
      (.error .InternalServerError,
        update_project_container_name bgStore 1 bgDep.new_container_name) :=
  (update_project_metadata_amended { bgEnvAllOk with updImgOk := false } 1 bgDep .direct
    bgStore).2.1 rfl rfl

/-! ## C5 — identical-digest short circuit -/

/-- C5: for a blue-green image update or a rebuild whose new image
digest equals the stored `deployed_image_digest`, the handler responds
`no_change` and the final state differs from the initial one only in
the runtime image set (the pulled image for an update, nothing net for a
rebuild, whose freshly built image is removed again): the store — hence
the Project row — is untouched and no container is created. -/
theorem blue_green_no_change_short_circuit :
    ∀ (env : BGEnv) (caller : String) (is_admin : Bool) (project_id : Int)
      (new_image_url : String) (st : SysState) (project : Project),
      get_project_by_id_for_user st.store project_id caller is_admin = some project →
      (project.source = ProjectSourceType.direct →
        validate_image_url new_image_url = .ok () →
        env.pullOk = true → env.scanOk = true →
        env.digestOf new_image_url = some project.deployed_image_digest →
        update_project_image_handler env caller is_admin project_id new_image_url st =
          (.noChange "The project is already running the latest version of the image.",
            { st with docker := dockerAddImage st.docker new_image_url })) ∧
      (project.source = ProjectSourceType.github →
        env.cloneOk = true → env.buildOk = true → env.scanOk = true →
        env.digestOf ("hangar-local/" ++ project.name ++ ":" ++ toString env.ts) =
          some project.deployed_image_digest →
        rebuild_project_handler env caller is_admin project_id st =
          (.noChange "The project source is already up to date.",
            { st with docker := dockerRemoveImage (dockerAddImage st.docker ("hangar-local/" ++ project.name ++ ":" ++ toString env.ts)) ("hangar-local/" ++ project.name ++ ":" ++ toString env.ts) })) := by
  intro env caller is_admin project_id new_image_url st project hfind
  constructor
  · intro hsrc hurl hpull hscan hdig
    unfold update_project_image_handler
    rw [hfind]
    unfold prepare_blue_green_deployment prepare_direct_source get_image_digest
    rw [hurl]
    simp [hsrc, hpull, hscan, hdig]
  · intro hsrc hclone hbuild hscan hdig
    unfold rebuild_project_handler
    rw [hfind]
    unfold build_image_from_github_source prepare_blue_green_deployment get_image_digest
    simp [hsrc, hclone, hbuild, hscan, hdig]



/-- C5 witness: both short circuits evaluated on concrete stores, with
the digest oracle answering the stored digest. -/
theorem blue_green_no_change_short_circuit_witness :
    update_project_image_handler { bgEnvAllOk with digestOf := fun _ => some "sha-old" }
        "alice" false 1 "nginx:1.26" { store := bgStore, docker := emptyDocker } =
      (.noChange "The project is already running the latest version of the image.",
        { store := bgStore,
          docker := dockerAddImage emptyDocker "nginx:1.26" }) ∧
    rebuild_project_handler { bgEnvAllOk with digestOf := fun _ => some "sha-gh" }
        "carol" false 2 { store := ghStore, docker := emptyDocker } =
      (.noChange "The project source is already up to date.",
        { store := ghStore,
          docker := dockerRemoveImage (dockerAddImage emptyDocker "hangar-local/site:1700000000") "hangar-local/site:1700000000" }) :=
  ⟨(blue_green_no_change_short_circuit
      { bgEnvAllOk with digestOf := fun _ => some "sha-old" } "alice" false 1 "nginx:1.26"
      { store := bgStore, docker := emptyDocker } bgProject (by decide)).1
      (by decide) (by decide) (by decide) (by decide) (by decide),
   (blue_green_no_change_short_circuit
      { bgEnvAllOk with digestOf := fun _ => some "sha-gh" } "carol" false 2 "unused"
      { store := ghStore, docker := emptyDocker } ghProject (by decide)).2
      (by decide) (by decide) (by decide) (by decide) (by decide)⟩

/-! ## C2 — participant access to mutating updates -/

/-- C2 counterexample: `bob` is a participant (not the owner, not an
admin) of project 1, yet the env-var update — a mutating blue-green
operation — succeeds for him, because the three update handlers guard
access with `get_project_by_id_for_user`, which accepts participants. -/
theorem participant_update_not_refused_counterexample :
    "bob" ≠ bgProject.owner ∧
    (1, "bob") ∈ bgStore.participants ∧
    (update_env_vars_handler bgEnvAllOk "bob" false 1 [("APP_COLOR", "green")]
        { store := bgStore, docker := emptyDocker }).1 =
      .success "Environment variables updated successfully. The project has been restarted." := by
  exact ⟨by decide, by decide, by decide⟩

/-- C2 (amended): the access check used by the mutating update handlers
(`get_project_by_id_for_user`) accepts the owner, any participant, or an
admin — participants are *not* restricted to read-level access there;
only the owner-only check (`get_project_by_id_and_owner`, used by purge
and participant management) restricts to the owner.  In particular, a
participant's env-var update succeeds whenever the external steps do. -/
theorem update_access_check_amended :
    (∀ (store : Store) (project_id : Int) (user : String) (p : Project),
      get_project_by_id_for_user store project_id user false = some p →
      p.id = project_id ∧ (p.owner = user ∨ (p.id, user) ∈ store.participants)) ∧
    (∀ (store : Store) (project_id : Int) (user : String),
      (∃ p ∈ store.projects, p.id = project_id ∧
        (p.owner = user ∨ (p.id, user) ∈ store.participants)) →
      (get_project_by_id_for_user store project_id user false).isSome = true) ∧
    (∀ (store : Store) (project_id : Int) (user : String) (p : Project),
      get_project_by_id_and_owner store project_id user false = some p →
      p.id = project_id ∧ p.owner = user) ∧
    (∀ (env : BGEnv) (st : SysState) (caller : String) (project_id : Int)
       (project : Project) (new_env_vars : List (String × String)),
      validate_env_vars new_env_vars = .ok () →
      get_project_by_id_for_user st.store project_id caller false = some project →
      env.createOk = true →
      wait_for_container_health env.healthRunning 10 = .ok () →
      env.updNameOk = true → env.updEnvOk = true →
      (update_env_vars_handler env caller false project_id new_env_vars st).1 =
        .success "Environment variables updated successfully. The project has been restarted.") := by
  refine ⟨?_, ?_, ?_, ?_⟩
  · intro store project_id user p h
    unfold get_project_by_id_for_user at h
    simp only [if_neg (by simp : ¬ (false : Bool) = true)] at h
    have hp := List.find?_some h
    simp only [Bool.and_eq_true, Bool.or_eq_true, beq_iff_eq] at hp
    refine ⟨hp.1, hp.2.imp id ?_⟩
    intro hmem
    exact (List.elem_iff).mp hmem
  · intro store project_id user hex
    unfold get_project_by_id_for_user
    simp only [if_neg (by simp : ¬ (false : Bool) = true)]
    rw [List.find?_isSome]
    obtain ⟨p, hmem, hid, hacc⟩ := hex
    refine ⟨p, hmem, ?_⟩
    simp only [Bool.and_eq_true, Bool.or_eq_true, beq_iff_eq]
    refine ⟨hid, hacc.imp id ?_⟩
    intro hmem2
    exact (List.elem_iff).mpr hmem2
  · intro store project_id user p h
    unfold get_project_by_id_and_owner at h
    simp only [if_neg (by simp : ¬ (false : Bool) = true)] at h
    have hp := List.find?_some h
    simp only [Bool.and_eq_true, beq_iff_eq] at hp
    exact hp
  · intro env st caller project_id project new_env_vars hval hfind hcreate hhealth hname henv
    unfold update_env_vars_handler execute_env_vars_blue_green_deployment
    simp [hval, hfind, hcreate, hhealth, hname, henv]

/-- C2 witness: the amended characterisation evaluated for participant
`bob` on the concrete store. -/
theorem update_access_check_amended_witness :
    (update_env_vars_handler bgEnvAllOk "bob" false 1 [("APP_COLOR", "blue")]
        { store := bgStore, docker := emptyDocker }).1 =
      .success "Environment variables updated successfully. The project has been restarted." :=
  update_access_check_amended.2.2.2 bgEnvAllOk { store := bgStore, docker := emptyDocker }
    "bob" 1 bgProject [("APP_COLOR", "blue")] (by decide) (by decide) (by decide)
    (by decide) (by decide) (by decide)

/-! ## C1 — deploy path, failed health wait -/



/-- C1: evaluation of `deploy_project_handler` at the failing input.
The ten health polls all fail, the container, volume and image are
rolled back — and the handler then **continues**: it persists the
Project row and returns it as a success, leaving a store row whose
container no longer exists (the source logs the health error without
returning it). -/
theorem deploy_health_failure_still_persists :
    wait_for_container_health deployEnvUnhealthy.healthRunning 10 =
      .error .InternalServerError ∧
    deploy_project_handler deployEnvUnhealthy deployPayloadDemo "alice" emptySys =
      (.ok deployDemoRow,
        { store := { projects := [deployDemoRow], participants := [], databases := [] },
          docker := { containers := [], volumes := [], images := [],
                      createdTrace := ["hangar-demo"] } }) := by
  exact ⟨by decide, by decide⟩

end Hangar
